import Mathlib

/-!
Verification of the traffic-signal-timing scripts `bayesian_optimization.py`
and `final_evaluation.py`.

The scripts orchestrate an external traffic simulator. The pure logic is
embedded directly: the signal-plan arithmetic of `generate_tl_program`, the
report-scoring blocks of `objective_function` and `run_single_evaluation`,
and the two simulation stepping loops. External effects are abstracted as
explicit inputs: the outcome of parsing the trip report of a scenario run is
a `ParseOutcome`, and the simulator's `getMinExpectedNumber` query is a trace
`mins : Nat → Nat` indexed by the number of `simulationStep` calls made so
far. Python floats are modelled as rationals and Python `int(...)` as
truncation toward zero.
-/

namespace TrafficBO

/-- `MAX_SIM_STEPS = 3600`, identical in both scripts. -/
def MAX_SIM_STEPS : ℕ := 3600

/-- First entry of the `SCENARIOS` list of `bayesian_optimization.py`. -/
def grid_normal : String := "grid_normal.sumocfg"

/-- Second entry of the `SCENARIOS` list of `bayesian_optimization.py`. -/
def grid_highstress : String := "grid_highstress.sumocfg"

/-- Third entry of the `SCENARIOS` list of `bayesian_optimization.py`. -/
def grid_disrupted : String := "grid_disrupted.sumocfg"

/-- `SCENARIOS` from `bayesian_optimization.py`: the fixed evaluation set. -/
def SCENARIOS : List String := [grid_normal, grid_highstress, grid_disrupted]

/-- Python `int(q)` on a real value: truncation toward zero. -/
def pyInt (q : ℚ) : ℤ := if 0 ≤ q then ⌊q⌋ else ⌈q⌉

/-- `green_time = cycle_length - 6` (3s yellow for each of the 2 main
directions), from `generate_tl_program`. -/
def green_time (cycle_length : ℤ) : ℤ := cycle_length - 6

/-- `ns_green_time = int(green_time * ns_green_ratio)` from
`generate_tl_program`. -/
def ns_green_time (cycle_length : ℤ) ( ns_green_ratio : ℚ) : ℤ :=
  pyInt ((green_time cycle_length : ℚ) * ns_green_ratio)

/-- `ew_green_time = green_time - ns_green_time` from `generate_tl_program`. -/
def ew_green_time (cycle_length : ℤ) ( ns_green_ratio : ℚ) : ℤ :=
  green_time cycle_length - ns_green_time cycle_length ns_green_ratio

/-- One `phase` element of the generated XML: a duration (serialized as a
decimal string in the file) and a lane-state string. -/
structure Phase where
  duration : ℤ
  state : String
  deriving DecidableEq

/-- One `tlLogic` element of the generated XML document. -/
structure TlLogic where
  id : String
  ttype : String
  programID : String
  offset : ℤ
  phases : List Phase
  deriving DecidableEq

/-- The XML document built by `generate_tl_program`: for each of the 9
intersections `J_i_j` of the 3x3 grid, a static `tlLogic` with the four
phases NS-green, NS-yellow (3s), EW-green, EW-yellow (3s). The file write at
the output path carries exactly this document. -/
def generate_tl_program (cycle_length : ℤ) ( ns_green_ratio : ℚ) : List TlLogic :=
  let ns := ns_green_time cycle_length ns_green_ratio
  let ew := ew_green_time cycle_length ns_green_ratio
  (List.range 3).flatMap (fun i =>
    (List.range 3).map (fun j =>
      { id := "J_" ++ toString i ++ "_" ++ toString j,
        ttype := "static",
        programID := "bo_plan",
        offset := 0,
        phases := [⟨ns, "GGggrrrrGGggrrrr"⟩, ⟨3, "yyyyrrrryyyyrrrr"⟩,
                   ⟨ew, "rrrrGGggrrrrGGgg"⟩, ⟨3, "rrrryyyyrrrryyyy"⟩] }))

/-- Outcome of `ET.parse("temp_tripinfo.xml")` followed by extraction of the
`waitingTime` attributes: the file may be absent (`FileNotFoundError`), the
XML may be malformed (`ET.ParseError`), or parsing succeeds with the list of
per-trip waiting times (possibly empty). -/
inductive ParseOutcome where
  | fileNotFound : ParseOutcome
  | parseError : ParseOutcome
  | ok (waitingTimes : List ℚ) : ParseOutcome
  deriving DecidableEq

/-- `np.mean` on a list of values: sum divided by length (the scripts only
apply it to nonempty lists). -/
def mean (ws : List ℚ) : ℚ := ws.sum / (ws.length : ℚ)

/-- The per-scenario scoring block of `objective_function`
(`bayesian_optimization.py` lines 90-103): penalty `MAX_SIM_STEPS * 10` on a
missing or malformed report or when no trips finished, otherwise the mean
waiting time. -/
def scenario_score (outcome : ParseOutcome) : ℚ :=
  match outcome with
  | ParseOutcome.fileNotFound => (MAX_SIM_STEPS : ℚ) * 10
  | ParseOutcome.parseError => (MAX_SIM_STEPS : ℚ) * 10
  | ParseOutcome.ok ws => if ws = [] then (MAX_SIM_STEPS : ℚ) * 10 else mean ws

/-- The result-parsing block of `run_single_evaluation`
(`final_evaluation.py` lines 44-51): `MAX_SIM_STEPS` on a missing or
malformed report or when no trips finished, otherwise the mean waiting
time. -/
def run_single_evaluation_score (outcome : ParseOutcome) : ℚ :=
  match outcome with
  | ParseOutcome.fileNotFound => (MAX_SIM_STEPS : ℚ)
  | ParseOutcome.parseError => (MAX_SIM_STEPS : ℚ)
  | ParseOutcome.ok ws => if ws = [] then (MAX_SIM_STEPS : ℚ) else mean ws

/-- `objective_function` from `bayesian_optimization.py`: score every
scenario of `SCENARIOS` and return `max(scenario_scores)`. The external
simulation run and report parse for each scenario are abstracted as
`reports`, mapping a scenario configuration name to the parse outcome of
`temp_tripinfo.xml` after that run; Python `max` on a list is `List.max?`
(`none` only on the empty list, where Python raises). -/
def objective_function (reports : String → ParseOutcome) : Option ℚ :=
  let scenario_scores := SCENARIOS.map (fun cfg => scenario_score (reports cfg))
  scenario_scores.max?

/-- A concrete environment whose three per-scenario scores are 10, 50, 20. -/
def exampleReports : String → ParseOutcome := fun cfg =>
  if cfg = grid_normal then ParseOutcome.ok [10]
  else if cfg = grid_highstress then ParseOutcome.ok [50]
  else ParseOutcome.ok [20]

/-- The stepping loop of `objective_function` (`bayesian_optimization.py`
lines 80-88), returning the number of `simulationStep` calls issued. `mins k`
is the value `getMinExpectedNumber` reports once `k` step calls have been
made; this loop queries it right after each step call. The fuel argument is
`MAX_SIM_STEPS - step`, the variant of `while step < MAX_SIM_STEPS` with
`step += 1` per iteration; the break fires only when additionally
`step > 100`. -/
def bo_loop (mins : ℕ → ℕ) : ℕ → ℕ → ℕ
  | _, 0 => 0
  | step, fuel + 1 =>
    if mins (step + 1) = 0 ∧ step > 100 then 1
    else 1 + bo_loop mins (step + 1) fuel

/-- Number of `simulationStep` calls issued by one episode of the
optimization driver's loop, starting at `step = 0`. -/
def bo_steps (mins : ℕ → ℕ) : ℕ := bo_loop mins 0 MAX_SIM_STEPS

/-- The stepping loop of `run_single_evaluation` (`final_evaluation.py`
lines 38-42), returning the number of `simulationStep` calls issued:
`while getMinExpectedNumber() > 0 and step < MAX_SIM_STEPS` queries the
simulator before every step call, the first included (`mins step` is the
query made after `step` calls). -/
def fe_loop (mins : ℕ → ℕ) : ℕ → ℕ → ℕ
  | _, 0 => 0
  | step, fuel + 1 =>
    if mins step > 0 then 1 + fe_loop mins (step + 1) fuel else 0

/-- Number of `simulationStep` calls issued by one episode of the
final-evaluation driver's loop, starting at `step = 0`. -/
def fe_steps (mins : ℕ → ℕ) : ℕ := fe_loop mins 0 MAX_SIM_STEPS

section Helpers

/-- In the optimization domain the product fed to `int(...)` is nonnegative,
so the truncation is a floor. -/
lemma ns_green_eq_floor (c : ℤ) (r : ℚ) (hc : 20 ≤ c) (hr : 3 / 10 ≤ r) :
    ns_green_time c r = ⌊((green_time c : ℤ) : ℚ) * r⌋ := by
  have hg : (0 : ℚ) ≤ ((green_time c : ℤ) : ℚ) := by
    have hcq : (20 : ℚ) ≤ (c : ℚ) := by exact_mod_cast hc
    simp only [green_time]
    push_cast
    linarith
  have hr0 : (0 : ℚ) ≤ r := by linarith
  have hprod : (0 : ℚ) ≤ ((green_time c : ℤ) : ℚ) * r := mul_nonneg hg hr0
  simp only [ns_green_time, pyInt]
  rw [if_pos hprod]

/-- Bounds on the two green durations over the search domain. -/
lemma ns_ew_bounds (c : ℤ) (r : ℚ) (hc : 20 ≤ c) (hr1 : 3 / 10 ≤ r)
    (hr2 : r ≤ 7 / 10) :
    4 ≤ ns_green_time c r ∧ 5 ≤ ew_green_time c r := by
  have hg14 : (14 : ℤ) ≤ green_time c := by
    simp only [green_time]
    omega
  have hgq : (14 : ℚ) ≤ ((green_time c : ℤ) : ℚ) := by exact_mod_cast hg14
  have hg0 : (0 : ℚ) ≤ ((green_time c : ℤ) : ℚ) := by linarith
  have hr0 : (0 : ℚ) ≤ 3 / 10 := by norm_num
  have hns := ns_green_eq_floor c r hc hr1
  have hlow : 4 ≤ ns_green_time c r := by
    rw [hns]
    refine Int.le_floor.mpr ?_
    have h1 : (14 : ℚ) * (3 / 10) ≤ ((green_time c : ℤ) : ℚ) * r :=
      mul_le_mul hgq hr1 hr0 hg0
    push_cast
    linarith
  refine ⟨hlow, ?_⟩
  have hfl : ⌊((green_time c : ℤ) : ℚ) * r⌋ < green_time c - 4 := by
    refine Int.floor_lt.mpr ?_
    have h1 : (14 : ℚ) * (3 / 10) ≤ ((green_time c : ℤ) : ℚ) * (1 - r) :=
      mul_le_mul hgq (by linarith) hr0 hg0
    have h2 : ((green_time c : ℤ) : ℚ) * (1 - r) =
        ((green_time c : ℤ) : ℚ) - ((green_time c : ℤ) : ℚ) * r := by ring
    push_cast
    linarith
  simp only [ew_green_time, hns]
  omega

/-- The phase-duration rows of the generated document, for any parameters. -/
lemma generate_tl_program_durations (c : ℤ) (r : ℚ) :
    (generate_tl_program c r).map (fun tl => tl.phases.map Phase.duration) =
      List.replicate 9 [ns_green_time c r, 3, ew_green_time c r, 3] := rfl

/-- As long as the settling guard `step > 100` cannot have fired, the
optimization loop keeps stepping: at least `n` calls are made whenever
`step + n ≤ 102` and the fuel allows. -/
lemma bo_loop_ge (mins : ℕ → ℕ) :
    ∀ (n step fuel : ℕ), n ≤ fuel → step + n ≤ 102 → n ≤ bo_loop mins step fuel := by
  intro n
  induction n with
  | zero => exact fun _ _ _ _ => Nat.zero_le _
  | succ n ih =>
    intro step fuel hf hs
    obtain ⟨f, rfl⟩ : ∃ f, fuel = f + 1 := ⟨fuel - 1, by omega⟩
    rw [bo_loop]
    split
    · next h =>
      obtain ⟨-, h2⟩ := h
      omega
    · have := ih (step + 1) f (by omega) (by omega)
      omega

/-- The optimization loop makes at most `fuel` step calls. -/
lemma bo_loop_le_fuel (mins : ℕ → ℕ) :
    ∀ (fuel step : ℕ), bo_loop mins step fuel ≤ fuel := by
  intro fuel
  induction fuel with
  | zero => intro step; rw [bo_loop]
  | succ f ih =>
    intro step
    rw [bo_loop]
    split
    · omega
    · have := ih (step + 1)
      omega

/-- The final-evaluation loop makes at most `fuel` step calls. -/
lemma fe_loop_le_fuel (mins : ℕ → ℕ) :
    ∀ (fuel step : ℕ), fe_loop mins step fuel ≤ fuel := by
  intro fuel
  induction fuel with
  | zero => intro step; rw [fe_loop]
  | succ f ih =>
    intro step
    rw [fe_loop]
    split
    · have := ih (step + 1)
      omega
    · omega

end Helpers

/-- C1: `objective_function` returns the maximum — not the average — of the
per-scenario scores over the fixed scenario set; for per-scenario scores
`[10, 50, 20]` it returns `50`, which differs from the average. -/
theorem objective_function_is_max :
    (∀ reports : String → ParseOutcome,
        objective_function reports =
          some (max (max (scenario_score (reports grid_normal))
                (scenario_score (reports grid_highstress)))
              (scenario_score (reports grid_disrupted)))) ∧
      SCENARIOS.map (fun cfg => scenario_score (exampleReports cfg)) = [10, 50, 20] ∧
      objective_function exampleReports = some 50 ∧
      ((10 : ℚ) + 50 + 20) / 3 ≠ 50 := by
  have h0 : scenario_score (exampleReports grid_normal) = 10 := by
    norm_num [exampleReports, grid_normal, grid_highstress, grid_disrupted,
      scenario_score, mean]
  have hne1 : grid_highstress ≠ grid_normal := by decide
  have hne2 : grid_disrupted ≠ grid_normal := by decide
  have hne3 : grid_disrupted ≠ grid_highstress := by decide
  have h1 : scenario_score (exampleReports grid_highstress) = 50 := by
    norm_num [exampleReports, hne1, scenario_score, mean]
  have h2 : scenario_score (exampleReports grid_disrupted) = 20 := by
    norm_num [exampleReports, hne2, hne3, scenario_score, mean]
  refine ⟨fun reports => rfl, ?_, ?_, by norm_num⟩
  · show [scenario_score (exampleReports grid_normal),
      scenario_score (exampleReports grid_highstress),
      scenario_score (exampleReports grid_disrupted)] = [10, 50, 20]
    rw [h0, h1, h2]
  · show some (max (max (scenario_score (exampleReports grid_normal))
        (scenario_score (exampleReports grid_highstress)))
        (scenario_score (exampleReports grid_disrupted))) = some 50
    rw [h0, h1, h2, max_eq_right (by norm_num : (10 : ℚ) ≤ 50),
      max_eq_left (by norm_num : (20 : ℚ) ≤ 50)]

/-- C2: the score-extraction block of `objective_function` returns the fixed
penalty `MAX_SIM_STEPS * 10` exactly on the degenerate outcomes (absent
file, malformed report, zero trip records) and the arithmetic mean of the
`waitingTime` values otherwise. -/
theorem scenario_score_penalty_iff_degenerate :
    scenario_score ParseOutcome.fileNotFound = (MAX_SIM_STEPS : ℚ) * 10 ∧
      scenario_score ParseOutcome.parseError = (MAX_SIM_STEPS : ℚ) * 10 ∧
      scenario_score (ParseOutcome.ok []) = (MAX_SIM_STEPS : ℚ) * 10 ∧
      ∀ ws : List ℚ, ws ≠ [] →
        scenario_score (ParseOutcome.ok ws) = ws.sum / (ws.length : ℚ) := by
  refine ⟨rfl, rfl, rfl, fun ws h => ?_⟩
  simp [scenario_score, mean, h]

/-- Witness for C2 at the concrete nonempty report `[4, 8]`. -/
theorem scenario_score_penalty_iff_degenerate_witness :
    scenario_score (ParseOutcome.ok [4, 8]) =
      ([4, 8] : List ℚ).sum / (([4, 8] : List ℚ).length : ℚ) :=
  scenario_score_penalty_iff_degenerate.2.2.2 [4, 8] (List.cons_ne_nil _ _)

/-- C3: over the whole search domain, every intersection's emitted phase
durations are `[ns, 3, ew, 3]` with `ns + ew + 6 = cycle_length` and both
green durations nonnegative integers. -/
theorem generate_tl_program_cycle_invariant :
    ∀ (cycle_length : ℤ) ( ns_green_ratio : ℚ),
      20 ≤ cycle_length → cycle_length ≤ 120 →
      3 / 10 ≤ ns_green_ratio → ns_green_ratio ≤ 7 / 10 →
      ∃ ns ew : ℤ,
        (generate_tl_program cycle_length ns_green_ratio).map
            (fun tl => tl.phases.map Phase.duration) =
          List.replicate 9 [ns, 3, ew, 3] ∧
        ns + ew + 6 = cycle_length ∧ 0 ≤ ns ∧ 0 ≤ ew := by
  intro c r hc1 hc2 hr1 hr2
  obtain ⟨h4, h5⟩ := ns_ew_bounds c r hc1 hr1 hr2
  refine ⟨ns_green_time c r, ew_green_time c r,
    generate_tl_program_durations c r, ?_, by omega, by omega⟩
  simp only [ew_green_time, green_time]
  ring

/-- Witness for C3 at `cycle_length = 60`, `ns_green_ratio = 1/2`. -/
theorem generate_tl_program_cycle_invariant_witness :
    ∃ ns ew : ℤ,
      (generate_tl_program 60 (1 / 2)).map (fun tl => tl.phases.map Phase.duration) =
        List.replicate 9 [ns, 3, ew, 3] ∧
      ns + ew + 6 = 60 ∧ 0 ≤ ns ∧ 0 ≤ ew :=
  generate_tl_program_cycle_invariant 60 (1 / 2) (by norm_num) (by norm_num)
    (by norm_num) (by norm_num)

/-- C4: `generate_tl_program` computes `green_time = cycle_length - 6`,
`ns_green_time = floor(green_time * ns_green_ratio)` and
`ew_green_time = green_time - ns_green_time` (the rounding remainder goes to
EW); `cycle_length = 21`, `ratio = 3/10` gives `ns = 4`, `ew = 11`, and
`cycle_length = 60`, `ratio = 1/2` emits durations `[27, 3, 27, 3]` at every
intersection. -/
theorem generate_tl_program_rounding :
    (∀ c : ℤ, green_time c = c - 6) ∧
      (∀ (c : ℤ) (r : ℚ), 20 ≤ c → 3 / 10 ≤ r →
        ns_green_time c r = ⌊((c - 6 : ℤ) : ℚ) * r⌋ ∧
          ew_green_time c r = (c - 6) - ns_green_time c r) ∧
      ns_green_time 21 (3 / 10) = 4 ∧
      ew_green_time 21 (3 / 10) = 11 ∧
      (generate_tl_program 60 (1 / 2)).map (fun tl => tl.phases.map Phase.duration) =
        List.replicate 9 [27, 3, 27, 3] := by
  have h21 : ns_green_time 21 (3 / 10) = 4 := by
    norm_num [ns_green_time, green_time, pyInt]
  have h60 : ns_green_time 60 (1 / 2) = 27 := by
    norm_num [ns_green_time, green_time, pyInt]
  refine ⟨fun c => rfl, fun c r hc hr => ⟨?_, rfl⟩, h21, ?_, ?_⟩
  · rw [ns_green_eq_floor c r hc hr]
    simp [green_time]
  · simp only [ew_green_time, green_time, h21]
    norm_num
  · rw [generate_tl_program_durations 60 (1 / 2), h60]
    simp only [ew_green_time, green_time, h60]
    norm_num

/-- Witness for C4's quantified part at `cycle_length = 60`,
`ns_green_ratio = 1/2`. -/
theorem generate_tl_program_rounding_witness :
    ns_green_time 60 (1 / 2) = ⌊((60 - 6 : ℤ) : ℚ) * (1 / 2)⌋ ∧
      ew_green_time 60 (1 / 2) = (60 - 6) - ns_green_time 60 (1 / 2) :=
  generate_tl_program_rounding.2.1 60 (1 / 2) (by norm_num) (by norm_num)

/-- C5 counterexample: the claim fails for the final-evaluation loop. With a
simulator trace reporting zero expected vehicles from the start, the loop of
`run_single_evaluation` issues zero `simulationStep` calls — it terminates on
the empty state at step 0, well below the step budget — while the
optimization loop's settling guard still forces 102 calls on the same
trace. -/
theorem fe_loop_stops_at_step_zero :
    fe_steps (fun _ => 0) = 0 ∧ 0 < MAX_SIM_STEPS ∧
      bo_steps (fun _ => 0) = 102 := by
  refine ⟨rfl, by norm_num [MAX_SIM_STEPS], ?_⟩
  have key : ∀ (fuel step : ℕ), 101 ≤ step → 1 ≤ fuel →
      bo_loop (fun _ => 0) step fuel = 1 := by
    intro fuel
    cases fuel with
    | zero => intro step _ h; omega
    | succ f =>
      intro step h _
      rw [bo_loop]
      rw [if_pos ⟨rfl, by omega⟩]
  have run : ∀ n step, step + n = 101 → n + 1 ≤ MAX_SIM_STEPS - step →
      bo_loop (fun _ => 0) step (MAX_SIM_STEPS - step) = n + 1 := by
    intro n
    induction n with
    | zero =>
      intro step h hf
      have h1 : MAX_SIM_STEPS - step = (MAX_SIM_STEPS - step - 1) + 1 := by omega
      rw [h1]
      exact key _ step (by omega) (by omega)
    | succ n ih =>
      intro step h hf
      have h1 : MAX_SIM_STEPS - step = (MAX_SIM_STEPS - (step + 1)) + 1 := by
        simp only [MAX_SIM_STEPS] at hf ⊢
        omega
      rw [h1, bo_loop]
      rw [if_neg (by omega : ¬((fun _ => 0) (step + 1) = 0 ∧ step > 100))]
      rw [ih (step + 1) (by omega) (by simp only [MAX_SIM_STEPS] at hf ⊢; omega)]
      omega
  have := run 101 0 (by omega) (by norm_num [MAX_SIM_STEPS])
  simpa only [Nat.sub_zero, bo_steps] using this

/-- C5 amended: only the optimization loop has the settling period — it
always issues at least 102 `simulationStep` calls before any empty-state
termination (guard `step > 100`), for every simulator trace; the
final-evaluation loop checks the empty condition before every step, the
first included, and can terminate at step 0. -/
theorem bo_loop_settling_period :
    ∀ mins : ℕ → ℕ, 102 ≤ bo_steps mins := fun mins =>
  bo_loop_ge mins 102 0 MAX_SIM_STEPS (by norm_num [MAX_SIM_STEPS]) (by omega)

/-- C6: the reduction of `run_single_evaluation` agrees with the score
extractor of `objective_function` on every nonempty report (same mean of
`waitingTime` values) but does not substitute the extractor's penalty policy
on the degenerate outcomes: there it returns `MAX_SIM_STEPS`, which differs
from the extractor's penalty. -/
theorem run_single_evaluation_score_vs_extractor :
    (∀ ws : List ℚ, ws ≠ [] →
        run_single_evaluation_score (ParseOutcome.ok ws) =
          scenario_score (ParseOutcome.ok ws)) ∧
      run_single_evaluation_score ParseOutcome.fileNotFound = (MAX_SIM_STEPS : ℚ) ∧
      run_single_evaluation_score ParseOutcome.parseError = (MAX_SIM_STEPS : ℚ) ∧
      run_single_evaluation_score (ParseOutcome.ok []) = (MAX_SIM_STEPS : ℚ) ∧
      run_single_evaluation_score ParseOutcome.fileNotFound ≠
        scenario_score ParseOutcome.fileNotFound ∧
      run_single_evaluation_score ParseOutcome.parseError ≠
        scenario_score ParseOutcome.parseError ∧
      run_single_evaluation_score (ParseOutcome.ok []) ≠
        scenario_score (ParseOutcome.ok []) := by
  refine ⟨fun ws h => ?_, rfl, rfl, rfl, ?_, ?_, ?_⟩
  · simp [run_single_evaluation_score, scenario_score, h]
  all_goals norm_num [run_single_evaluation_score, scenario_score, MAX_SIM_STEPS]

/-- Witness for C6 at the concrete nonempty report `[7]`. -/
theorem run_single_evaluation_score_vs_extractor_witness :
    run_single_evaluation_score (ParseOutcome.ok [7]) =
      scenario_score (ParseOutcome.ok [7]) :=
  run_single_evaluation_score_vs_extractor.1 [7] (List.cons_ne_nil _ _)

/-- C7: signal-plan generation is deterministic and idempotent — identical
`cycle_length` and `ns_green_ratio` always yield the identical plan document
(same intersection ids, phase order, durations and state strings); the output
depends on nothing but the two parameters. -/
theorem generate_tl_program_deterministic :
    ∀ (c c' : ℤ) (r r' : ℚ), c = c' → r = r' →
      generate_tl_program c r = generate_tl_program c' r' := by
  intro c c' r r' hc hr
  rw [hc, hr]

/-- Witness for C7 at `cycle_length = 60`, `ns_green_ratio = 1/2`. -/
theorem generate_tl_program_deterministic_witness :
    generate_tl_program 60 (1 / 2) = generate_tl_program 60 (1 / 2) :=
  generate_tl_program_deterministic 60 60 (1 / 2) (1 / 2) rfl rfl

/-- C8: both stepping loops are total and issue at most
`MAX_SIM_STEPS = 3600` `simulationStep` calls per episode, for every
simulator trace (the fuel of the embedding is the loop variant
`MAX_SIM_STEPS - step`). -/
theorem sim_loops_step_bounded :
    ∀ mins : ℕ → ℕ,
      bo_steps mins ≤ MAX_SIM_STEPS ∧ fe_steps mins ≤ MAX_SIM_STEPS := fun mins =>
  ⟨bo_loop_le_fuel mins MAX_SIM_STEPS 0, fe_loop_le_fuel mins MAX_SIM_STEPS 0⟩

/-- C9: over the whole search domain both green durations are strictly
positive (`ns ≥ 4`, `ew ≥ 5`), so the generated document never holds a
zero-duration phase. -/
theorem green_phases_positive :
    ∀ (cycle_length : ℤ) ( ns_green_ratio : ℚ),
      20 ≤ cycle_length → cycle_length ≤ 120 →
      3 / 10 ≤ ns_green_ratio → ns_green_ratio ≤ 7 / 10 →
      4 ≤ ns_green_time cycle_length ns_green_ratio ∧
        5 ≤ ew_green_time cycle_length ns_green_ratio ∧
        ∀ tl ∈ generate_tl_program cycle_length ns_green_ratio,
          ∀ p ∈ tl.phases, 0 < p.duration := by
  intro c r hc1 hc2 hr1 hr2
  obtain ⟨h4, h5⟩ := ns_ew_bounds c r hc1 hr1 hr2
  refine ⟨h4, h5, fun tl htl p hp => ?_⟩
  have hmap := generate_tl_program_durations c r
  have hd : tl.phases.map Phase.duration ∈
      (generate_tl_program c r).map (fun tl => tl.phases.map Phase.duration) :=
    List.mem_map_of_mem _ htl
  rw [hmap] at hd
  have hd2 := List.eq_of_mem_replicate hd
  have : p.duration ∈ tl.phases.map Phase.duration := List.mem_map_of_mem _ hp
  rw [hd2] at this
  simp only [List.mem_cons, List.not_mem_nil, or_false] at this
  rcases this with h | h | h | h <;> omega

/-- Witness for C9 at the domain corner `cycle_length = 20`,
`ns_green_ratio = 3/10`. -/
theorem green_phases_positive_witness :
    4 ≤ ns_green_time 20 (3 / 10) ∧ 5 ≤ ew_green_time 20 (3 / 10) := by
  have h := green_phases_positive 20 (3 / 10) (by norm_num) (by norm_num)
    (by norm_num) (by norm_num)
  exact ⟨h.1, h.2.1⟩

/-- C10: the two drivers use penalty magnitudes differing by a factor of
ten for the same degenerate outcomes: `objective_function` scores them
`MAX_SIM_STEPS * 10 = 36000` while `run_single_evaluation` returns
`MAX_SIM_STEPS = 3600`. -/
theorem penalty_magnitudes_differ :
    scenario_score ParseOutcome.fileNotFound = 36000 ∧
      run_single_evaluation_score ParseOutcome.fileNotFound = 3600 ∧
      scenario_score ParseOutcome.fileNotFound =
        10 * run_single_evaluation_score ParseOutcome.fileNotFound ∧
      scenario_score ParseOutcome.parseError =
        10 * run_single_evaluation_score ParseOutcome.parseError ∧
      scenario_score (ParseOutcome.ok []) =
        10 * run_single_evaluation_score (ParseOutcome.ok []) := by
  norm_num [scenario_score, run_single_evaluation_score, MAX_SIM_STEPS]

end TrafficBO
